import Mathlib

/-!
Verification development for blender-example-cli-cmd, a command-line wrapper
that relaunches itself under the Blender host, splits the host argument
vector at the separator token, parses its own CLI arguments and runs a
reset, load, transform, save pipeline on the host scene.

The definitions below are a shallow embedding of
src/blender-example-cli-cmd.py.  The host (bpy) operations are external
collaborators; they are modelled by explicit state passing over a Scene
record, following the host API boundary described in the design document
(scene object enumeration and removal, import, export with the four
recognized options, per-object modifier attachment, interaction-mode
switching).
-/

namespace BlenderCli

/-- The literal separator token dividing host arguments from program
arguments (source line 55 and line 183). -/
def sepToken : String := "--"

/-- The host binary name used by execBlender (source line 40). -/
def blenderBin : String := "blender"

/-- The self path as execBlender resolves it (source lines 41 to 47): the
absolute path, wrapped in double quotes on Windows-style platforms. -/
def resolvedSelfPath (isWindows : Bool) (selfPath : String) : String :=
  if isWindows then "\"" ++ selfPath ++ "\"" else selfPath

/-- The argument vector execBlender hands to the process-replace call
(source lines 49 to 56): host binary, background flag, factory-startup
flag, python flag with the resolved self path, the separator token, then
the original argv with the program name removed. -/
def execBlenderArgs (isWindows : Bool) (selfPath : String)
    (argv : List String) : List String :=
  [blenderBin, "--background", "--factory-startup", "--python",
    resolvedSelfPath isWindows selfPath, sepToken] ++ argv.drop 1

/-! ## Logging configuration (source lines 86 to 88 and 188 to 192) -/

/-- Numeric value of logging.INFO in the Python logging module. -/
def INFO : Nat := 20

/-- Numeric value of logging.DEBUG in the Python logging module. -/
def DEBUG : Nat := 10

/-- Numeric value of logging.WARNING, the default level of the root
logger when basicConfig is given no level. -/
def WARNING : Nat := 30

/-- Stable descending insertion, mirroring Python sorted with
reverse=True on the two-element level list. -/
def orderedInsertDesc (x : Nat) : List Nat → List Nat
  | [] => [x]
  | y :: ys => if y ≤ x then x :: y :: ys else y :: orderedInsertDesc x ys

/-- Stable descending sort, mirroring Python sorted with reverse=True. -/
def sortDesc : List Nat → List Nat
  | [] => []
  | x :: xs => orderedInsertDesc x (sortDesc xs)

/-- LOGLEV (source lines 87 to 88): first [INFO, DEBUG], then None
prepended to that list sorted descending, giving [None, INFO, DEBUG]. -/
def LOGLEV : List (Option Nat) :=
  none :: (sortDesc [INFO, DEBUG]).map some

/-- Semantics of logging.basicConfig on the level argument: with
level=None the root logger keeps its default WARNING level, otherwise the
given level is set. -/
def basicConfigLevel : Option Nat → Nat
  | none => WARNING
  | some l => l

/-- The effective root logger level configured by main (source lines 189
to 192): LOGLEV indexed at min of the verbose count and the last index. -/
def configuredLevel (verbose : Nat) : Nat :=
  basicConfigLevel (LOGLEV.getD (min verbose (LOGLEV.length - 1)) none)

/-! ## Scene model (host collaborator state) -/

/-- A modifier attached to a scene object: creation name, creation kind
and the subdivision levels parameter (source lines 135 to 136). -/
structure Modifier where
  name : String
  kind : String
  levels : Int
deriving DecidableEq

/-- An object in the host scene: its name, its modifier stack and its
selection flag. -/
structure SceneObject where
  name : String
  modifiers : List Modifier
  selected : Bool
deriving DecidableEq

/-- The host SceneContext: the object list, the active object (by name)
and the current interaction mode. -/
structure Scene where
  objects : List SceneObject
  activeObject : Option String
  mode : String
deriving DecidableEq

/-- The parts of the outside world the pipeline consults: whether a path
names an existing regular file, and the objects an obj file would import
into the scene. -/
structure FileSystem where
  isfile : String → Bool
  objectsOf : String → List String

/-- The object interaction mode forced by sceneprep. -/
def objectMode : String := "OBJECT"

/-- sceneprep (source lines 92 to 98): if there is an active object,
switch the interaction mode to OBJECT first, then remove every object
from the scene, which also leaves no active object. -/
def sceneprep (s : Scene) : Scene :=
  let s1 := if s.activeObject.isSome then { s with mode := objectMode } else s
  { s1 with objects := [], activeObject := none }

/-- A freshly imported object: no modifiers yet, selected by the
importer. -/
def importedObject (n : String) : SceneObject :=
  { name := n, modifiers := [], selected := true }

/-- load_obj (source lines 101 to 104): the host import operation
appends the objects of the file to the scene and makes the last imported
object active. -/
def load_obj (fs : FileSystem) (file : String) (s : Scene) : Scene :=
  { s with
    objects := s.objects ++ (fs.objectsOf file).map importedObject,
    activeObject := (fs.objectsOf file).getLast? }

/-- The deselect step (source line 131): clear the selection flag of
every object. -/
def deselect_all (s : Scene) : Scene :=
  { s with objects := s.objects.map (fun o => { o with selected := false }) }

/-- Name under which the new modifier is created (source line 135). -/
def subsurfName : String := "subsurf"

/-- Kind under which the new modifier is created (source line 135). -/
def subsurfKind : String := "SUBSURF"

/-- The subdivision-surface modifier the transform step attaches, with
the requested depth (source lines 135 to 136). -/
def subsurfOf (levels : Int) : Modifier :=
  { name := subsurfName, kind := subsurfKind, levels := levels }

/-- Attach one new subsurf modifier with the given depth to one object:
modifiers.new appends to the modifier stack (source lines 135 to 136). -/
def addSubsurfModifier (levels : Int) (o : SceneObject) : SceneObject :=
  { o with modifiers := o.modifiers ++ [subsurfOf levels] }

/-- The transform loop of thething (source lines 134 to 136): every
object in the scene gets one new subsurf modifier, no filtering. -/
def subdivideAll (levels : Int) (s : Scene) : Scene :=
  { s with objects := s.objects.map (addSubsurfModifier levels) }

/-! ## Export (source lines 107 to 116) -/

/-- The four recognized options of the host export operation. -/
structure ExportOptions where
  check_existing : Bool
  use_selection : Bool
  use_animation : Bool
  use_mesh_modifiers : Bool
deriving DecidableEq

/-- One object as it appears in the exported artifact: its name and the
modifier effects applied to its geometry at export time. -/
structure ExportedObject where
  name : String
  appliedModifiers : List Modifier
deriving DecidableEq

/-- The exported artifact written at the output path. -/
structure Artifact where
  objects : List ExportedObject
  hasAnimation : Bool
deriving DecidableEq

/-- Semantics of the host export operation on the recognized options:
use_selection restricts the export to selected objects, use_mesh_modifiers
applies the modifier stacks to the exported geometry, use_animation
includes animation data.  The scene itself is not mutated. -/
def exportScene (opts : ExportOptions) (s : Scene) : Artifact :=
  { objects :=
      (if opts.use_selection then s.objects.filter (fun o => o.selected)
       else s.objects).map
        (fun o =>
          { name := o.name,
            appliedModifiers :=
              if opts.use_mesh_modifiers then o.modifiers else [] }),
    hasAnimation := opts.use_animation }

/-- The option record save_obj passes to the host export operation
(source lines 109 to 115): check_existing false so an existing file is
overwritten, use_selection false so the full scene is exported,
use_animation false, use_mesh_modifiers true so modifiers are applied at
export time. -/
def saveObjOptions : ExportOptions :=
  { check_existing := false, use_selection := false,
    use_animation := false, use_mesh_modifiers := true }

/-- The export call save_obj makes: the output path, the options above
and the resulting artifact. -/
structure SaveCall where
  filepath : String
  options : ExportOptions
  artifact : Artifact
deriving DecidableEq

/-- save_obj (source lines 107 to 116). -/
def save_obj (file : String) (s : Scene) : SaveCall :=
  { filepath := file, options := saveObjOptions,
    artifact := exportScene saveObjOptions s }

/-! ## The pipeline (source lines 120 to 138) -/

/-- The parsed program arguments (source lines 142 to 177): repeatable
verbose count, integer subdivision levels defaulting to 2, and the two
required positionals. -/
structure Args where
  verbose : Nat
  levels : Int
  input : String
  output : String
deriving DecidableEq

/-- Outcome of one call to thething: the Python return value (some 1 on
the input precondition failure, none when the function falls off the
end), the final scene, and the files written. -/
structure PipelineRun where
  status : Option Nat
  scene : Scene
  writes : List SaveCall
deriving DecidableEq

/-- thething (source lines 120 to 138): return 1 at once when the input
path is not an existing regular file, otherwise reset the scene, import
the input, deselect everything, attach one subsurf modifier of the
requested depth to every object, and export to the output path. -/
def thething (fs : FileSystem) (args : Args) (s : Scene) : PipelineRun :=
  if fs.isfile args.input = false then
    { status := some 1, scene := s, writes := [] }
  else
    let s1 := sceneprep s
    let s2 := load_obj fs args.input s1
    let s3 := deselect_all s2
    let s4 := subdivideAll args.levels s3
    { status := none, scene := s4, writes := [save_obj args.output s4] }

/-! ## Argument parsing (source lines 142 to 177)

The parser configured in parse_arguments is an argparse parser with
options -v and --verbose (count action), --levels (one int value,
default 2), the automatic -h and --help, and the two required
positionals input and output.  The loop below models the argparse
behaviour this configuration produces on the argument vectors relevant
here: option abbreviation by unique prefixes and dash tokens that look
like negative numbers in positional slots are not modelled, since no
claim exercises them.  On any parse failure argparse calls its error
method, which exits the process with status 2; the -h path prints usage
and exits with status 0. -/

/-- The dash character, code point 45. -/
def dashChar : Char := Char.ofNat 45

/-- The plus character, code point 43. -/
def plusChar : Char := Char.ofNat 43

/-- The v character, code point 118. -/
def vChar : Char := Char.ofNat 118

/-- The zero character, code point 48. -/
def zeroChar : Char := Char.ofNat 48

/-- Value of a decimal digit character, none for a non-digit. -/
def digitVal? (c : Char) : Option Nat :=
  if c.isDigit then some (c.toNat - zeroChar.toNat) else none

/-- Accumulate decimal digits; none on the first non-digit. -/
def digitsToNatAux : List Char → Nat → Option Nat
  | [], acc => some acc
  | c :: cs, acc =>
    match digitVal? c with
    | none => none
    | some d => digitsToNatAux cs (acc * 10 + d)

/-- A nonempty all-digit character list as a number. -/
def digitsToNat? : List Char → Option Nat
  | [] => none
  | c :: cs => digitsToNatAux (c :: cs) 0

/-- Semantics of the Python int constructor on the strings relevant
here: an optional sign followed by at least one decimal digit; anything
else raises, which argparse turns into a parse error. -/
def parsePyInt (s : String) : Option Int :=
  match s.toList with
  | [] => none
  | c :: rest =>
    if c = dashChar then (digitsToNat? rest).map (fun n => -(n : Int))
    else if c = plusChar then (digitsToNat? rest).map (fun n => (n : Int))
    else (digitsToNat? (c :: rest)).map (fun n => (n : Int))

/-- Character-list version of string startsWith, kept executable for the
kernel. -/
def listStartsWith : List Char → List Char → Bool
  | _, [] => true
  | [], _ :: _ => false
  | a :: as, b :: bs => a == b && listStartsWith as bs

/-- Does s start with p. -/
def strStartsWith (s p : String) : Bool :=
  listStartsWith s.toList p.toList

/-- Drop the first n characters of a string. -/
def strDropChars (s : String) (n : Nat) : String :=
  String.mk (s.toList.drop n)

/-- A clustered short verbose token such as -v, -vv, -vvv: a dash
followed by one or more v characters. -/
def isVerboseCluster (t : String) : Bool :=
  match t.toList with
  | [] => false
  | c :: rest => c == dashChar && !rest.isEmpty && rest.all (fun x => x == vChar)

/-- Does the token look like an option: a dash followed by at least one
further character. -/
def looksLikeOption (t : String) : Bool :=
  match t.toList with
  | c :: _ :: _ => c == dashChar
  | _ => false

/-- The short help token. -/
def helpShort : String := "-h"

/-- The long help token. -/
def helpLong : String := "--help"

/-- The short verbose token. -/
def verboseShort : String := "-v"

/-- The long verbose token. -/
def verboseLong : String := "--verbose"

/-- The levels option token. -/
def levelsLong : String := "--levels"

/-- The levels option token in its equals-sign form. -/
def levelsAssign : String := "--levels="

/-- Accumulator of the parse loop: verbose count so far, levels value so
far, positional tokens collected so far. -/
structure ParseState where
  verbose : Nat
  levels : Int
  positionals : List String

/-- How a parse_args call ends: a parsed Args record, the help exit, or
the argparse error exit. -/
inductive ParseOutcome where
  | ok : Args → ParseOutcome
  | help : ParseOutcome
  | err : ParseOutcome
deriving DecidableEq

/-- End of the token stream: exactly the two required positionals yield
a parsed record; fewer means a missing required argument and more means
unrecognized arguments, both argparse errors. -/
def finishParse (st : ParseState) : ParseOutcome :=
  match st.positionals with
  | [i, o] =>
    ParseOutcome.ok
      { verbose := st.verbose, levels := st.levels, input := i, output := o }
  | _ => ParseOutcome.err

/-- The argparse matching loop for the parser configured in
parse_arguments. -/
def parseTokens : List String → ParseState → ParseOutcome
  | [], st => finishParse st
  | t :: rest, st =>
    if t = helpShort ∨ t = helpLong then ParseOutcome.help
    else if t = verboseShort ∨ t = verboseLong then
      parseTokens rest { st with verbose := st.verbose + 1 }
    else if isVerboseCluster t then
      parseTokens rest { st with verbose := st.verbose + (t.length - 1) }
    else if t = levelsLong then
      match rest with
      | [] => ParseOutcome.err
      | v :: rest2 =>
        match parsePyInt v with
        | none => ParseOutcome.err
        | some n => parseTokens rest2 { st with levels := n }
    else if strStartsWith t levelsAssign then
      match parsePyInt (strDropChars t levelsAssign.length) with
      | none => ParseOutcome.err
      | some n => parseTokens rest { st with levels := n }
    else if looksLikeOption t then ParseOutcome.err
    else parseTokens rest { st with positionals := st.positionals ++ [t] }

/-- parse_arguments (source lines 142 to 177): run the argparse loop
from the defaults, verbose 0 and levels 2. -/
def parse_arguments (argv : List String) : ParseOutcome :=
  parseTokens argv { verbose := 0, levels := 2, positionals := [] }

/-! ## main (source lines 180 to 200) -/

/-- Index of the first occurrence of the separator token, as the Python
list index method computes it; none when absent, where index raises
ValueError. -/
def indexOfSep : List String → Option Nat
  | [] => none
  | a :: rest =>
    if a = sepToken then some 0 else (indexOfSep rest).map (fun i => i + 1)

/-- The Argument Splitter (source lines 183 to 184): everything strictly
after the first separator token; none embeds the uncaught ValueError
when the token is absent. -/
def splitArgs (argv : List String) : Option (List String) :=
  (indexOfSep argv).map (fun i => argv.drop (i + 1))

/-- How one embedded run of main ends: the uncaught ValueError from a
missing separator, a SystemExit raised by argparse with its code, or a
completed run of main carrying the discarded thething status, the final
scene and the writes performed. -/
inductive RunOutcome where
  | defectMissingSeparator : RunOutcome
  | usageExit : Nat → RunOutcome
  | completed : Option Nat → Scene → List SaveCall → RunOutcome
deriving DecidableEq

/-- main (source lines 180 to 197) as invoked through sys.exit at source
lines 199 to 200: split the host argv at the separator, parse the
program arguments, run thething.  main ignores the value thething
returns and itself returns None. -/
def runMain (fs : FileSystem) (s : Scene) (argv : List String) : RunOutcome :=
  match splitArgs argv with
  | none => RunOutcome.defectMissingSeparator
  | some progArgs =>
    match parse_arguments progArgs with
    | ParseOutcome.help => RunOutcome.usageExit 0
    | ParseOutcome.err => RunOutcome.usageExit 2
    | ParseOutcome.ok args =>
      let r := thething fs args s
      RunOutcome.completed r.status r.scene r.writes

/-- The process exit status of one embedded run: an uncaught Python
exception exits with status 1, a SystemExit carries its own code, and a
completed main returns None so sys.exit(None) exits with status 0. -/
def processExitCode : RunOutcome → Nat
  | RunOutcome.defectMissingSeparator => 1
  | RunOutcome.usageExit c => c
  | RunOutcome.completed _ _ _ => 0

/-! ## Concrete fixtures used by witnesses and counterexamples -/

/-- A world with no files at all. -/
def fsEmpty : FileSystem :=
  { isfile := fun _ => false, objectsOf := fun _ => [] }

/-- The rose input path of the concrete spec scenario. -/
def roseObj : String := "rose.obj"

/-- A world holding exactly the rose obj file with two objects. -/
def fsRose : FileSystem :=
  { isfile := fun p => decide (p = roseObj),
    objectsOf := fun p => if p = roseObj then ["Rose", "Stem"] else [] }

/-- A pristine scene. -/
def startScene : Scene :=
  { objects := [], activeObject := none, mode := objectMode }

/-- A scene with leftover state from an earlier run. -/
def dirtyScene : Scene :=
  { objects :=
      [{ name := "Leftover", modifiers := [subsurfOf 5], selected := true }],
    activeObject := some "Leftover", mode := "EDIT" }

/-- Parsed arguments naming a missing input file. -/
def argsMissing : Args :=
  { verbose := 0, levels := 2, input := "missing.obj", output := "out.obj" }

/-- Parsed arguments for the rose scenario with depth 3. -/
def argsRose : Args :=
  { verbose := 0, levels := 3, input := roseObj, output := "rose-subsurf.obj" }

/-- A host argument vector whose program part names a missing input. -/
def argvMissing : List String :=
  [blenderBin, "--background", "--factory-startup", "--python",
    "script.py", sepToken, "missing.obj", "out.obj"]

/-- A host argument vector without the separator token. -/
def argvNoSep : List String :=
  [blenderBin, "--background", "rose.obj", "out.obj"]

/-- A host argument vector whose program part has only one positional. -/
def argvOnePos : List String :=
  [blenderBin, sepToken, "solo.obj"]

end BlenderCli

namespace BlenderCli

/-! ## Helper lemmas about the Argument Splitter -/

/-- When the separator is absent from the front part, its first
occurrence in front ++ separator :: back is at the length of the front
part. -/
theorem indexOfSep_append (pre post : List String) (h : sepToken ∉ pre) :
    indexOfSep (pre ++ sepToken :: post) = some pre.length := by
  induction pre with
  | nil => simp [indexOfSep]
  | cons a as ih =>
    have ha : ¬ a = sepToken := by
      intro e
      exact h (by simp [e])
    have hm : sepToken ∉ as := fun hx => h (List.mem_cons_of_mem _ hx)
    simp [indexOfSep, ha, ih hm]

/-- Dropping one more element than the front part removes the front part
and the pivot. -/
theorem drop_length_succ (pre : List String) (x : String)
    (post : List String) :
    (pre ++ x :: post).drop (pre.length + 1) = post := by
  induction pre with
  | nil => simp
  | cons a as ih => simp [ih]

/-- The splitter on a vector with the separator present returns exactly
the part strictly after the first separator. -/
theorem splitArgs_append (pre post : List String) (h : sepToken ∉ pre) :
    splitArgs (pre ++ sepToken :: post) = some post := by
  rw [splitArgs, indexOfSep_append pre post h, Option.map_some']
  rw [drop_length_succ]

/-- When the separator is absent there is no separator index. -/
theorem indexOfSep_none (l : List String) (h : sepToken ∉ l) :
    indexOfSep l = none := by
  induction l with
  | nil => rfl
  | cons a as ih =>
    have ha : ¬ a = sepToken := by
      intro e
      exact h (by simp [e])
    have hm : sepToken ∉ as := fun hx => h (List.mem_cons_of_mem _ hx)
    simp [indexOfSep, ha, ih hm]

/-- C3: for every argument vector containing the separator token, the
Argument Splitter returns exactly the subsequence strictly after the
first occurrence of the separator, unchanged in order and content. -/
theorem c3_splitter_after_first_sep (pre post : List String)
    (h : sepToken ∉ pre) :
    splitArgs (pre ++ sepToken :: post) = some post :=
  splitArgs_append pre post h

/-- Host side of a combined argument vector, with no separator in it. -/
def preHost : List String :=
  [blenderBin, "--background", "--factory-startup", "--python", "script.py"]

/-- Program side of a combined argument vector. -/
def postProg : List String := ["rose.obj", "out.obj", "--levels", "3"]

/-- Witness for C3 on a concrete host argument vector. -/
theorem c3_witness :
    sepToken ∉ preHost
    ∧ splitArgs (preHost ++ sepToken :: postProg) = some postProg :=
  ⟨by decide, c3_splitter_after_first_sep preHost postProg (by decide)⟩

/-- C4: when the Host Probe fails, the Relauncher constructs the host
invocation as exactly the host binary, the background flag, the
factory-startup flag, the python flag with the resolved self path, and
the separator, followed by every original argument argv drop 1 in
original order; consequently the splitter recovers argv drop 1 from the
reconstructed invocation. -/
theorem c4_relaunch_invocation (w : Bool) (selfPath : String)
    (argv : List String) (h : resolvedSelfPath w selfPath ≠ sepToken) :
    execBlenderArgs w selfPath argv
      = [blenderBin, "--background", "--factory-startup", "--python",
          resolvedSelfPath w selfPath, sepToken] ++ argv.drop 1
    ∧ splitArgs (execBlenderArgs w selfPath argv) = some (argv.drop 1) := by
  constructor
  · rfl
  · have hpre : sepToken ∉
        [blenderBin, "--background", "--factory-startup", "--python",
          resolvedSelfPath w selfPath] := by
      intro hmem
      simp [List.mem_cons] at hmem
      rcases hmem with h1 | h1 | h1 | h1 | h1
      · exact absurd h1 (by decide)
      · exact absurd h1 (by decide)
      · exact absurd h1 (by decide)
      · exact absurd h1 (by decide)
      · exact h h1.symm
    exact splitArgs_append _ _ hpre

/-- The resolved self path used by the concrete relaunch witness. -/
def selfPathW : String := "/home/user/blender-example-cli-cmd.py"

/-- The original argument vector of the concrete relaunch witness. -/
def argvOrig : List String :=
  ["blender-example-cli-cmd", "rose.obj", "rose-subsurf.obj",
    "--levels", "3"]

/-- Witness for C4 on a concrete original argument vector. -/
theorem c4_witness :
    resolvedSelfPath false selfPathW ≠ sepToken
    ∧ execBlenderArgs false selfPathW argvOrig
        = [blenderBin, "--background", "--factory-startup", "--python",
            resolvedSelfPath false selfPathW, sepToken] ++ argvOrig.drop 1
    ∧ splitArgs (execBlenderArgs false selfPathW argvOrig)
        = some (argvOrig.drop 1) :=
  ⟨by decide, c4_relaunch_invocation false selfPathW argvOrig (by decide)⟩

/-- C5: for every argument vector without the separator token, the
Argument Splitter signals a defect condition instead of returning a
slice, and main ends in the defect outcome before any parsing or
pipeline step executes. -/
theorem c5_missing_separator_defect (argv : List String)
    (h : sepToken ∉ argv) :
    splitArgs argv = none
    ∧ ∀ fs s, runMain fs s argv = RunOutcome.defectMissingSeparator := by
  have hidx : splitArgs argv = none := by
    rw [splitArgs, indexOfSep_none argv h]
    rfl
  refine ⟨hidx, fun fs s => ?_⟩
  unfold runMain
  rw [hidx]

/-- Witness for C5 on a concrete separator-free argument vector. -/
theorem c5_witness :
    splitArgs argvNoSep = none
    ∧ runMain fsEmpty startScene argvNoSep
        = RunOutcome.defectMissingSeparator :=
  ⟨(c5_missing_separator_defect argvNoSep (by decide)).1,
    (c5_missing_separator_defect argvNoSep (by decide)).2 fsEmpty startScene⟩

end BlenderCli

namespace BlenderCli

/-- C1: evidence against the exit status claim, evaluated on the code:
on a host argument vector whose program part names a missing input file,
thething reports the failure value 1, but main discards that value and
itself returns none, so sys.exit receives none and the process exit
status is 0, not 1.  Nothing is written at the output path. -/
theorem c1_missing_input_exit_status :
    runMain fsEmpty startScene argvMissing
      = RunOutcome.completed (some 1) startScene []
    ∧ processExitCode (runMain fsEmpty startScene argvMissing) = 0
    ∧ processExitCode (runMain fsEmpty startScene argvMissing) ≠ 1 := by
  decide

/-- C2: for every starting scene state and every world in which the
input path is not an existing regular file, thething returns the status
1 failure, leaves the scene exactly as it was, so the object count
before equals the count after, and performs no load and no save, so
nothing is written at the output path. -/
theorem c2_input_not_found_no_mutation (fs : FileSystem) (args : Args)
    (s : Scene) (h : fs.isfile args.input = false) :
    (thething fs args s).status = some 1
    ∧ (thething fs args s).scene = s
    ∧ (thething fs args s).scene.objects.length = s.objects.length
    ∧ (thething fs args s).writes = [] := by
  simp [thething, h]

/-- Witness for C2 on the concrete missing input and a dirty scene. -/
theorem c2_witness :
    (thething fsEmpty argsMissing dirtyScene).status = some 1
    ∧ (thething fsEmpty argsMissing dirtyScene).scene = dirtyScene
    ∧ (thething fsEmpty argsMissing dirtyScene).scene.objects.length
        = dirtyScene.objects.length
    ∧ (thething fsEmpty argsMissing dirtyScene).writes = [] :=
  c2_input_not_found_no_mutation fsEmpty argsMissing dirtyScene (by decide)

/-- In the success branch the final scene holds exactly the imported
objects, each deselected and carrying exactly the one new subsurf
modifier of the requested depth. -/
theorem thething_success_objects (fs : FileSystem) (args : Args)
    (s : Scene) (h : fs.isfile args.input = true) :
    (thething fs args s).scene.objects
      = (fs.objectsOf args.input).map
          (fun n =>
            { name := n, modifiers := [subsurfOf args.levels],
              selected := false }) := by
  simp [thething, h, sceneprep, load_obj, deselect_all, subdivideAll,
    importedObject, addSubsurfModifier, List.map_map]

/-- C6: after the load step, the transform step attaches to every object
present in the scene exactly one new subsurf modifier whose depth equals
the requested levels value, uniformly with no per-object filtering: the
final scene lists exactly the imported objects, in order, and every one
of them carries exactly the single new modifier. -/
theorem c6_uniform_subsurf (fs : FileSystem) (args : Args) (s : Scene)
    (h : fs.isfile args.input = true) :
    (thething fs args s).scene.objects.map SceneObject.name
        = fs.objectsOf args.input
    ∧ ∀ o ∈ (thething fs args s).scene.objects,
        o.modifiers = [subsurfOf args.levels] := by
  rw [thething_success_objects fs args s h]
  constructor
  · rw [List.map_map, show (SceneObject.name ∘ fun n =>
        ({ name := n, modifiers := [subsurfOf args.levels],
            selected := false } : SceneObject)) = id from rfl, List.map_id]
  · intro o ho
    simp [List.mem_map] at ho
    obtain ⟨n, hn, rfl⟩ := ho
    rfl

/-- Witness for C6 on the rose scenario with depth 3 and a dirty
starting scene. -/
theorem c6_witness :
    (thething fsRose argsRose dirtyScene).scene.objects.map SceneObject.name
        = fsRose.objectsOf argsRose.input
    ∧ ∀ o ∈ (thething fsRose argsRose dirtyScene).scene.objects,
        o.modifiers = [subsurfOf argsRose.levels] :=
  c6_uniform_subsurf fsRose argsRose dirtyScene (by decide)

/-- C7: every save step invokes the host export operation with
check_existing false (an existing file at the path is overwritten),
use_selection false (the artifact lists every scene object, so the full
scene is exported regardless of the selection flags), use_animation
false (animation data excluded) and use_mesh_modifiers true (the
modifier stacks are applied to the exported geometry at export time,
while the scene objects themselves keep their unapplied stacks). -/
theorem c7_save_options (file : String) (s : Scene) :
    (save_obj file s).options.check_existing = false
    ∧ (save_obj file s).options.use_selection = false
    ∧ (save_obj file s).options.use_animation = false
    ∧ (save_obj file s).options.use_mesh_modifiers = true
    ∧ (save_obj file s).artifact.objects
        = s.objects.map
            (fun o => { name := o.name, appliedModifiers := o.modifiers })
    ∧ (save_obj file s).artifact.hasAnimation = false := by
  refine ⟨rfl, rfl, rfl, rfl, ?_, rfl⟩
  simp [save_obj, exportScene, saveObjOptions]

/-- C8: the reset step leaves the scene empty regardless of leftover
state, and a full pipeline run yields writes and status independent of
the starting scene; in particular a second run performed on the scene a
first run left behind writes the same artifact as a run started from
any other prior state. -/
theorem c8_run_independent_of_prior_state (fs : FileSystem) (args : Args)
    (s1 s2 : Scene) :
    (sceneprep s1).objects = []
    ∧ (thething fs args s1).writes = (thething fs args s2).writes
    ∧ (thething fs args s1).status = (thething fs args s2).status
    ∧ (thething fs args ((thething fs args s1).scene)).writes
        = (thething fs args s2).writes := by
  refine ⟨rfl, ?_, ?_, ?_⟩ <;>
    cases h : fs.isfile args.input <;>
      simp [thething, h, sceneprep, load_obj, deselect_all, subdivideAll,
        save_obj, exportScene, saveObjOptions]

/-- C9: the configured logger level is a function of the verbose count:
0 gives WARNING, the basicConfig default, so warnings only; 1 gives
INFO; and every count of at least 2 is clamped to DEBUG. -/
theorem c9_log_level (v : Nat) :
    configuredLevel 0 = WARNING
    ∧ configuredLevel 1 = INFO
    ∧ (2 ≤ v → configuredLevel v = DEBUG) := by
  refine ⟨by decide, by decide, fun hv => ?_⟩
  have hlen : LOGLEV.length - 1 = 2 := by decide
  have hmin : min v (LOGLEV.length - 1) = 2 := by
    rw [hlen]
    exact min_eq_right hv
  unfold configuredLevel
  rw [hmin]
  decide

/-- Witness for C9 at the concrete verbose count 7. -/
theorem c9_witness : 2 ≤ 7 ∧ configuredLevel 7 = DEBUG :=
  ⟨by decide, (c9_log_level 7).2.2 (by decide)⟩

/-- C10: whenever the post-separator argument vector fails CLI parsing,
for example through a missing required positional or a non-integer
levels value, the process terminates with exit status 2, a status
outside the exit codes 0 and 1 enumerated by the design document. -/
theorem c10_parse_error_exit_two (fs : FileSystem) (s : Scene)
    (argv progArgs : List String)
    (hsplit : splitArgs argv = some progArgs)
    (herr : parse_arguments progArgs = ParseOutcome.err) :
    processExitCode (runMain fs s argv) = 2
    ∧ (2 : Nat) ≠ 0 ∧ (2 : Nat) ≠ 1 := by
  refine ⟨?_, by decide, by decide⟩
  simp [runMain, hsplit, herr, processExitCode]

/-- Witness for C10: a post-separator vector holding only one positional
is an argparse error and the process exits with status 2. -/
theorem c10_witness :
    processExitCode (runMain fsEmpty startScene argvOnePos) = 2
    ∧ (2 : Nat) ≠ 0 ∧ (2 : Nat) ≠ 1 :=
  c10_parse_error_exit_two fsEmpty startScene argvOnePos
    ["solo.obj"] (by decide) (by decide)

end BlenderCli
